import Mathlib

/-!
# Shallow embedding of the Tetris rules engine (`game.py`)

This file embeds the per-tick game-loop logic of `Game` in `game.py`:
gravity, the lock-delay state machine, the lock/clear/score/spawn step,
T-spin corner classification, and the hold mechanic.  Supporting modules
that are not part of the excerpt (`grid.py`, `tetromino.py`, `score.py`,
`piece_generator.py`, `constants.py`) are modelled from the specification;
each such definition carries a doc comment starting with
`Modelled from the spec:`.  Machine numbers are embedded as `Int`/`Nat`
(Python integers are unbounded, so no wraparound modelling is needed).
-/

/-- Modelled from the spec: the constants module (`constants.py`) is not part
of the excerpt, so the numeric thresholds are carried as an explicit record
of parameters rather than fixed literals. -/
structure Config where
  LOCK_DELAY : Int
  MAX_LOCK_MOVES : Nat
  INITIAL_DROP_SPEED : Int
  MIN_DROP_SPEED : Int
  SPEED_INCREMENT : Int
  LINES_PER_LEVEL : Nat
  deriving DecidableEq

/-- The seven canonical tetromino shape identities. -/
inductive ShapeName
  | I | O | T | S | Z | J | L
  deriving DecidableEq

/-- The playfield: a `width`×`height` grid of cell values, `0` = empty,
non-zero = a color/identity token (data model of `grid.py` per the spec). -/
structure Grid where
  width : Nat
  height : Nat
  cells : List (List Nat)
  deriving DecidableEq

/-- Well-formedness of a grid: `height` rows, each of length `width`. -/
def Grid.Wf (g : Grid) : Prop :=
  g.cells.length = g.height ∧ ∀ row ∈ g.cells, row.length = g.width

instance (g : Grid) : Decidable g.Wf := by
  unfold Grid.Wf; infer_instance

/-- The active tetromino state: shape identity, anchor position, rotation
state and the lock-delay fields read and written by `Game.update`. -/
structure Piece where
  shape_name : ShapeName
  x : Int
  y : Int
  rotation_state : Nat
  color : Nat
  lock_delay_active : Bool
  lock_delay_timer : Int
  lock_moves_count : Nat
  is_locked : Bool
  deriving DecidableEq

/-- Modelled from the spec: the per-rotation-state occupied cell offsets of
`tetromino.py` (not part of the excerpt).  Standard guideline offsets inside
a 3×3 bounding box (4×4 for I); the T offsets agree with the 3×3 box whose
center `(x+1, y+1)` is used by `Game.check_t_spin` in `game.py`. -/
def shapeOffsets (n : ShapeName) (state : Nat) : List (Int × Int) :=
  match n, state % 4 with
  | .I, 0 => [(0,1),(1,1),(2,1),(3,1)]
  | .I, 1 => [(2,0),(2,1),(2,2),(2,3)]
  | .I, 2 => [(0,2),(1,2),(2,2),(3,2)]
  | .I, _ => [(1,0),(1,1),(1,2),(1,3)]
  | .O, _ => [(1,0),(2,0),(1,1),(2,1)]
  | .T, 0 => [(1,0),(0,1),(1,1),(2,1)]
  | .T, 1 => [(1,0),(1,1),(2,1),(1,2)]
  | .T, 2 => [(0,1),(1,1),(2,1),(1,2)]
  | .T, _ => [(1,0),(0,1),(1,1),(1,2)]
  | .S, 0 => [(1,0),(2,0),(0,1),(1,1)]
  | .S, 1 => [(1,0),(1,1),(2,1),(2,2)]
  | .S, 2 => [(1,1),(2,1),(0,2),(1,2)]
  | .S, _ => [(0,0),(0,1),(1,1),(1,2)]
  | .Z, 0 => [(0,0),(1,0),(1,1),(2,1)]
  | .Z, 1 => [(2,0),(1,1),(2,1),(1,2)]
  | .Z, 2 => [(0,1),(1,1),(1,2),(2,2)]
  | .Z, _ => [(1,0),(0,1),(1,1),(0,2)]
  | .J, 0 => [(0,0),(0,1),(1,1),(2,1)]
  | .J, 1 => [(1,0),(2,0),(1,1),(1,2)]
  | .J, 2 => [(0,1),(1,1),(2,1),(2,2)]
  | .J, _ => [(1,0),(1,1),(0,2),(1,2)]
  | .L, 0 => [(2,0),(0,1),(1,1),(2,1)]
  | .L, 1 => [(1,0),(1,1),(1,2),(2,2)]
  | .L, 2 => [(0,1),(1,1),(2,1),(0,2)]
  | .L, _ => [(0,0),(1,0),(1,1),(1,2)]

/-- Modelled from the spec: `Tetromino.get_block_positions` — the absolute
grid coordinates occupied by the piece at its current position/rotation. -/
def Piece.get_block_positions (p : Piece) : List (Int × Int) :=
  (shapeOffsets p.shape_name p.rotation_state).map (fun o => (p.x + o.1, p.y + o.2))

/-- Modelled from the spec: `Grid.is_collision` of `grid.py` (not in the
excerpt) — true if any occupied cell of the piece is outside horizontal
bounds, at or below the bottom bound, or overlaps a non-empty cell; cells
above row 0 (negative row) are never a collision. -/
def Grid.is_collision (g : Grid) (p : Piece) : Bool :=
  p.get_block_positions.any (fun c =>
    decide (c.1 < 0) || decide ((g.width : Int) ≤ c.1) ||
    decide ((g.height : Int) ≤ c.2) ||
    (decide (0 ≤ c.2) && ((g.cells.getD c.2.toNat []).getD c.1.toNat 0 != 0)))

/-- Modelled from the spec: `Tetromino.is_touching_ground` — true if
translating down by one row would collide. -/
def Piece.is_touching_ground (g : Grid) (p : Piece) : Bool :=
  g.is_collision { p with y := p.y + 1 }

/-- Modelled from the spec: `Tetromino.move` of `tetromino.py` (not in the
excerpt) — attempts a translation, applying it only if the resulting
position does not collide, and returns whether it moved; a successful move
increments the lock-delay move counter (capped at `MAX_LOCK_MOVES`) and,
if the piece is then resting on something, resets the lock-delay timer
while keeping the delay active. -/
def Piece.move (cfg : Config) (g : Grid) (p : Piece) (dx dy : Int) : Piece × Bool :=
  let q := { p with x := p.x + dx, y := p.y + dy }
  if g.is_collision q then (p, false)
  else
    let q := { q with lock_moves_count := min (q.lock_moves_count + 1) cfg.MAX_LOCK_MOVES }
    let q := if q.is_touching_ground g then
        { q with lock_delay_timer := 0, lock_delay_active := true }
      else q
    (q, true)

/-- Modelled from the spec: `Tetromino.update_position` — reconciles pending
state once per tick, re-checking touching-ground to (re)activate the lock
delay. -/
def Piece.update_position (g : Grid) (p : Piece) : Piece :=
  if p.is_touching_ground g then
    if p.lock_delay_active then p
    else { p with lock_delay_active := true, lock_delay_timer := 0 }
  else p

/-- Modelled from the spec: the `Tetromino(shape_name, grid)` constructor —
a fresh piece of the given shape identity at its spawn anchor (horizontally
centered, top of the board), rotation state 0, lock-delay state cleared. -/
def mkTetromino (g : Grid) (n : ShapeName) : Piece :=
  { shape_name := n
    x := (g.width : Int) / 2 - 2
    y := 0
    rotation_state := 0
    color := match n with
      | .I => 1 | .O => 2 | .T => 3 | .S => 4 | .Z => 5 | .J => 6 | .L => 7
    lock_delay_active := false
    lock_delay_timer := 0
    lock_moves_count := 0
    is_locked := false }

/-- Modelled from the spec: `Tetromino.reset_position` — puts the piece back
at its derived fresh spawn position. -/
def Piece.reset_position (g : Grid) (p : Piece) : Piece :=
  { p with x := (g.width : Int) / 2 - 2, y := 0 }

/-- Set one cell of the grid (helper for the modelled `lock_piece`). -/
def Grid.setCell (g : Grid) (x y v : Nat) : Grid :=
  { g with cells := g.cells.set y ((g.cells.getD y []).set x v) }

/-- Modelled from the spec: `Grid.lock_piece` of `grid.py` (not in the
excerpt) — writes the piece's color token into every occupied cell that is
addressable (cells above row 0 are not addressable and are skipped). -/
def Grid.lock_piece (g : Grid) (p : Piece) : Grid :=
  p.get_block_positions.foldl
    (fun acc c =>
      if 0 ≤ c.1 ∧ c.1 < (acc.width : Int) ∧ 0 ≤ c.2 ∧ c.2 < (acc.height : Int) then
        acc.setCell c.1.toNat c.2.toNat p.color
      else acc) g

/-- Modelled from the spec: `Grid.clear_lines` of `grid.py` (not in the
excerpt) — removes every full row, shifting the rows above down and
backfilling the top with empty rows. -/
def Grid.clear_lines (g : Grid) : Grid :=
  let remaining := g.cells.filter (fun row => !(row.all (fun c => c != 0)))
  { g with
      cells := List.replicate (g.height - remaining.length) (List.replicate g.width 0)
               ++ remaining }

/-- Modelled from the spec: `Grid.is_board_clear` — true iff every cell is
empty. -/
def Grid.is_board_clear (g : Grid) : Bool :=
  g.cells.all (fun row => row.all (fun c => c == 0))

/-- T-spin classification results returned by `Game.check_t_spin`
(the Python function returns `"normal"`, `"mini"` or `False`; the
no-spin `False` case is `none` here). -/
inductive TSpin
  | normal
  | mini
  deriving DecidableEq

/-- Score state (data model of `score.py` per the spec §4.5). -/
structure Score where
  score : Int
  level : Nat
  lines_cleared_total : Nat
  combo : Nat
  back_to_back : Bool
  deriving DecidableEq

/-- Modelled from the spec: `Score.update` of `score.py` (not in the
excerpt) — base points per lines-cleared count multiplied by level, spin
bonus (mini worth less than normal), back-to-back multiplier for
consecutive difficult clears, combo counter with a flat bonus per level
beyond the first, unconditional per-row soft/hard-drop bonuses, and the
flag/counter updates; returns the new state and the score delta. -/
def Score.update (sc : Score) (lines : Nat) (tspin : Option TSpin)
    (drop_height soft_drop_count hard_drop_count : Nat) : Score × Int :=
  let base : Int := ([0, 100, 300, 500, 800].getD lines 0) * (sc.level : Int)
  let spin_bonus : Int := match tspin with
    | some .normal => 400 * (sc.level : Int)
    | some .mini => 100 * (sc.level : Int)
    | none => 0
  let difficult := decide (lines = 4) || (tspin.isSome && decide (0 < lines))
  let b2b_bonus : Int :=
    if difficult && sc.back_to_back then (base + spin_bonus) / 2 else 0
  let combo1 := if 0 < lines then sc.combo + 1 else 0
  let combo_bonus : Int := if 1 < combo1 then 50 * ((combo1 : Int) - 1) else 0
  let drop_bonus : Int := (soft_drop_count : Int) + 2 * (hard_drop_count : Int) +
    (drop_height : Int) * 0
  let delta := base + spin_bonus + b2b_bonus + combo_bonus + drop_bonus
  let b2b1 := if 0 < lines then difficult else sc.back_to_back
  ({ sc with
      score := sc.score + delta
      lines_cleared_total := sc.lines_cleared_total + lines
      combo := combo1
      back_to_back := b2b1 }, delta)

/-- Modelled from the spec: `Score.update_level` —
`level = 1 + floor(totalLinesCleared / LINES_PER_LEVEL)`, and the level
never decreases. -/
def Score.update_level (cfg : Config) (sc : Score) : Score :=
  { sc with level := max sc.level (1 + sc.lines_cleared_total / cfg.LINES_PER_LEVEL) }

/-- Modelled from the spec: `Score.add_tetris_clear_bonus` — the all-clear
bonus awarded when a clear empties the whole board. -/
def Score.add_tetris_clear_bonus (sc : Score) : Score :=
  { sc with score := sc.score + 2000 }

/-- Modelled from the spec: the Sequencer's bag refill (`piece_generator.py`
is not in the excerpt); the shuffle is abstracted to a fixed order, which no
theorem below depends on. -/
def PieceGen.refill : List ShapeName :=
  [.I, .O, .T, .S, .Z, .J, .L]

/-- Modelled from the spec: `PieceGenerator.get_next_piece` — draws the next
shape from the queue (replenishing from the bag when empty) and constructs
a fresh piece of that shape at spawn. -/
def PieceGen.get_next_piece (g : Grid) (q : List ShapeName) : Piece × List ShapeName :=
  match q with
  | [] => (mkTetromino g .I, PieceGen.refill.tail)
  | n :: rest => (mkTetromino g n, rest)

/-- Modelled from the spec: `PieceGenerator.preview_next_pieces` — a
non-destructive look-ahead of the next N (here 3) upcoming shapes. -/
def PieceGen.preview_next_pieces (q : List ShapeName) : List ShapeName :=
  (q ++ PieceGen.refill).take 3

/-- The in-game session state of `Game` in `game.py`: the fields read and
written by the gameplay tick (`Game.update`) and by `Game.hold_piece`.
Presentation-only fields (screen, HUD, particles, buttons, timers for
menus) are out of scope per the spec. -/
structure Game where
  grid : Grid
  piece_generator : List ShapeName
  current_piece : Option Piece
  next_pieces : List ShapeName
  held_piece : Option Piece
  can_hold : Bool
  score : Score
  is_paused : Bool
  game_over : Bool
  drop_timer : Int
  drop_speed : Int
  soft_drop_count : Nat
  drop_height : Nat
  hard_drop_count : Nat
  last_move_was_rotation : Bool
  deriving DecidableEq

/-- `Game.is_cell_filled` (game.py lines 600-605): out-of-bounds coordinates
count as filled; in bounds, filled iff the cell is non-zero. -/
def Game.is_cell_filled (g : Grid) (x y : Int) : Bool :=
  if x < 0 ∨ (g.width : Int) ≤ x ∨ y < 0 ∨ (g.height : Int) ≤ y then true
  else ((g.cells.getD y.toNat []).getD x.toNat 0) != 0

/-- `Game.get_back_corners` (game.py lines 589-598): the two back corner
cells of the T piece's 3×3 box, by rotation state. -/
def Game.get_back_corners (p : Piece) : List (Int × Int) :=
  if p.rotation_state = 0 then [(p.x, p.y), (p.x + 2, p.y)]
  else if p.rotation_state = 1 then [(p.x + 2, p.y), (p.x + 2, p.y + 2)]
  else if p.rotation_state = 2 then [(p.x, p.y + 2), (p.x + 2, p.y + 2)]
  else [(p.x, p.y), (p.x, p.y + 2)]

/-- `Game.get_front_corners` (game.py lines 607-616): the two front corner
cells of the T piece's 3×3 box, by rotation state. -/
def Game.get_front_corners (p : Piece) : List (Int × Int) :=
  if p.rotation_state = 0 then [(p.x, p.y + 2), (p.x + 2, p.y + 2)]
  else if p.rotation_state = 1 then [(p.x, p.y), (p.x, p.y + 2)]
  else if p.rotation_state = 2 then [(p.x, p.y), (p.x + 2, p.y)]
  else [(p.x + 2, p.y), (p.x + 2, p.y + 2)]

/-- The four diagonal neighbor cells around the T piece's 3×3 bounding
center `(x+1, y+1)`, exactly as enumerated inside `Game.check_t_spin`
(game.py lines 556-566). -/
def Game.tSpinCorners (p : Piece) : List (Int × Int) :=
  [(p.x + 1 - 1, p.y + 1 - 1), (p.x + 1 + 1, p.y + 1 - 1),
   (p.x + 1 - 1, p.y + 1 + 1), (p.x + 1 + 1, p.y + 1 + 1)]

/-- `Game.check_t_spin` (game.py lines 551-587): spin classification from
the four corner cells, split into front and back corners by rotation
state. -/
def Game.check_t_spin (g : Grid) (p : Piece) (last_move_was_rotation : Bool) :
    Option TSpin :=
  if p.shape_name ≠ ShapeName.T ∨ last_move_was_rotation = false then none
  else
    let corners := Game.tSpinCorners p
    let filled_corners := corners.countP (fun c => Game.is_cell_filled g c.1 c.2)
    let front_corners := Game.get_front_corners p
    let filled_front_corners :=
      front_corners.countP (fun c => Game.is_cell_filled g c.1 c.2)
    if 3 ≤ filled_corners then
      if 2 ≤ filled_front_corners then some .mini else some .normal
    else none

/-- The full-row scan of the lock step (game.py lines 360-363): collect,
for `y` from `height-1` down to `0`, the rows whose cells are all
non-zero. -/
def Game.lines_to_clear (g : Grid) : List Nat :=
  ((List.range g.height).reverse).filter
    (fun y => (List.range g.width).all
      (fun x => ((g.cells.getD y []).getD x 0) != 0))

/-- `Game.update_drop_speed` (game.py lines 426-430). -/
def Game.update_drop_speed (cfg : Config) (s : Game) : Game :=
  { s with
      drop_speed := max cfg.MIN_DROP_SPEED
        (cfg.INITIAL_DROP_SPEED - ((s.score.level : Int) - 1) * cfg.SPEED_INCREMENT) }

/-- The gravity step of the tick (game.py lines 333-336): when the drop
timer exceeds the drop speed, attempt one downward move, reset the timer
and bump the drop-height counter. -/
def Game.gravityStep (cfg : Config) (s : Game) (p : Piece) : Game × Piece :=
  if s.drop_speed < s.drop_timer then
    ({ s with drop_timer := 0, drop_height := s.drop_height + 1 },
     (p.move cfg s.grid 0 1).1)
  else (s, p)

/-- The lock-delay step of the tick (game.py lines 338-350): while the
delay is active, accumulate the elapsed time; on expiry of the timer or of
the move-count cap, lock only if still touching ground, otherwise
deactivate the delay and reset its counters. -/
def Game.lockDelayStep (cfg : Config) (g : Grid) (delta : Int) (p : Piece) : Piece :=
  if p.lock_delay_active then
    let p := { p with lock_delay_timer := p.lock_delay_timer + delta }
    if cfg.LOCK_DELAY ≤ p.lock_delay_timer ∨ cfg.MAX_LOCK_MOVES ≤ p.lock_moves_count then
      if p.is_touching_ground g then { p with is_locked := true }
      else { p with lock_delay_active := false, lock_moves_count := 0, lock_delay_timer := 0 }
    else p
  else p

/-- The lock step of the tick (game.py lines 352-406): classify the spin,
lock the piece into the grid, scan and clear full rows, update the score,
reset the per-piece counters, update level and drop speed after a clear,
award the all-clear bonus, draw the next piece, and end the session if the
new piece collides at spawn. -/
def Game.lockStep (cfg : Config) (s : Game) (p : Piece) (was_rotation : Bool) : Game :=
  let t_spin_type :=
    if was_rotation then Game.check_t_spin s.grid p s.last_move_was_rotation else none
  let grid1 := s.grid.lock_piece p
  let lines_to_clear := Game.lines_to_clear grid1
  let lines_cleared := lines_to_clear.length
  let grid2 := if 0 < lines_cleared then grid1.clear_lines else grid1
  let score1 := (s.score.update lines_cleared t_spin_type
    s.drop_height s.soft_drop_count s.hard_drop_count).1
  let s := { s with
      grid := grid2
      score := score1
      drop_height := 0
      soft_drop_count := 0
      hard_drop_count := 0
      last_move_was_rotation := false }
  let s := if 0 < lines_cleared then
      Game.update_drop_speed cfg { s with score := s.score.update_level cfg }
    else s
  let s := if s.grid.is_board_clear then
      { s with score := s.score.add_tetris_clear_bonus }
    else s
  let drawn := PieceGen.get_next_piece s.grid s.piece_generator
  let s := { s with
      current_piece := some drawn.1
      piece_generator := drawn.2
      next_pieces := PieceGen.preview_next_pieces drawn.2
      can_hold := true }
  if s.grid.is_collision drawn.1 then { s with game_over := true } else s

/-- The gameplay tick: the `'game'` branch of `Game.update`
(game.py lines 287-406), Classic mode, with the presentation-only pieces
(particles, HUD, AI debug printing, screen bookkeeping) out of scope.
`delta` is the measured elapsed time of the tick. -/
def Game.update (cfg : Config) (delta : Int) (s : Game) : Game :=
  if s.game_over || s.is_paused then s
  else
    let s := { s with drop_timer := s.drop_timer + delta }
    match s.current_piece with
    | none => s
    | some p =>
      let p := p.update_position s.grid
      let was_rotation := s.last_move_was_rotation
      let sp := Game.gravityStep cfg s p
      let s := sp.1
      let p := Game.lockDelayStep cfg s.grid delta sp.2
      let s := { s with current_piece := some p }
      if p.is_locked then Game.lockStep cfg s p was_rotation else s

/-- `Game.hold_piece` (game.py lines 665-677): an empty slot stores a fresh
piece of the current shape and draws the next piece from the generator; a
non-empty slot swaps the two shape identities through fresh pieces,
resetting the incoming piece's position. -/
def Game.hold_piece (s : Game) : Game :=
  match s.current_piece with
  | none => s
  | some p =>
    match s.held_piece with
    | none =>
      let held := mkTetromino s.grid p.shape_name
      let drawn := PieceGen.get_next_piece s.grid s.piece_generator
      { s with
          held_piece := some held
          current_piece := some drawn.1
          piece_generator := drawn.2
          next_pieces := PieceGen.preview_next_pieces drawn.2 }
    | some hp =>
      let temp_shape_name := p.shape_name
      let cur := (mkTetromino s.grid hp.shape_name).reset_position s.grid
      { s with
          current_piece := some cur
          held_piece := some (mkTetromino s.grid temp_shape_name) }

/-! ## Concrete states used to exercise the theorems below -/

/-- A sample parameter record (concrete stand-ins for `constants.py`). -/
def cfg0 : Config :=
  { LOCK_DELAY := 500, MAX_LOCK_MOVES := 15, INITIAL_DROP_SPEED := 1000,
    MIN_DROP_SPEED := 100, SPEED_INCREMENT := 50, LINES_PER_LEVEL := 10 }

/-- An empty 4×4 grid. -/
def gEmpty4 : Grid := ⟨4, 4, [[0,0,0,0],[0,0,0,0],[0,0,0,0],[0,0,0,0]]⟩

/-- A 4×4 grid whose bottom row is full except for its two middle cells. -/
def gBottomGap : Grid := ⟨4, 4, [[0,0,0,0],[0,0,0,0],[0,0,0,0],[1,0,0,1]]⟩

/-- A 5×4 grid with some filled cells, rows of width 5. -/
def gMixed : Grid := ⟨5, 4, [[0,0,0,0,0],[0,0,7,0,0],[1,0,0,1,0],[1,0,0,1,1]]⟩

/-- An O piece positioned to complete the bottom row of `gBottomGap`. -/
def pO : Piece :=
  { shape_name := .O, x := 0, y := 2, rotation_state := 0, color := 2,
    lock_delay_active := false, lock_delay_timer := 0, lock_moves_count := 0,
    is_locked := true }

/-- A T piece resting on the floor of a 4×4 grid with its lock delay about
to expire. -/
def pResting : Piece :=
  { shape_name := .T, x := 0, y := 2, rotation_state := 0, color := 3,
    lock_delay_active := true, lock_delay_timer := 450, lock_moves_count := 0,
    is_locked := false }

/-- A T piece in rotation state 2, used for the corner-table theorems. -/
def pRot2 : Piece :=
  { shape_name := .T, x := 0, y := 1, rotation_state := 2, color := 3,
    lock_delay_active := false, lock_delay_timer := 0, lock_moves_count := 0,
    is_locked := false }

/-- A baseline score state. -/
def score0 : Score :=
  { score := 0, level := 1, lines_cleared_total := 0, combo := 0, back_to_back := false }

/-- A baseline in-game session state over `gEmpty4`. -/
def game0 : Game :=
  { grid := gEmpty4, piece_generator := [.L, .J], current_piece := some pResting,
    next_pieces := [.L, .J, .I], held_piece := none, can_hold := true, score := score0,
    is_paused := false, game_over := false, drop_timer := 0, drop_speed := 1000,
    soft_drop_count := 0, drop_height := 0, hard_drop_count := 0,
    last_move_was_rotation := false }

/-- A session state about to lock `pO` into `gBottomGap`, one line short of
a level-up. -/
def gameLock : Game :=
  { game0 with
      grid := gBottomGap
      current_piece := some pO
      score := { score0 with lines_cleared_total := 9 } }

/-- A session state whose drop timer has just exceeded the drop speed. -/
def gameFast : Game :=
  { game0 with drop_timer := 1001 }

/-- A session state that is already game over. -/
def gameOverState : Game :=
  { game0 with game_over := true }

/-- A 10×20 board with a block sitting in the spawn area of the next piece. -/
def gSpawnBlocked : Grid :=
  ⟨10, 20,
   [[0,0,0,0,9,0,0,0,0,0]] ++ List.replicate 19 (List.replicate 10 0)⟩

/-- A session on `gSpawnBlocked` where the hold slot is empty and the
generator's next piece (an O) collides at its spawn position. -/
def gameHoldCex : Game :=
  { game0 with
      grid := gSpawnBlocked
      piece_generator := [.O]
      current_piece := some { pRot2 with x := 3, y := 17 } }

/-- A session used to exercise the hold mechanic with an empty slot. -/
def gameHold : Game :=
  { game0 with
      piece_generator := [.L]
      current_piece := some { pRot2 with x := 1, y := 1 } }

/-! ## Theorems -/

/-- Helper: the corner list enumerated inside `check_t_spin` around the
center `(x+1, y+1)` is the four diagonal cells of the 3×3 box at `(x, y)`. -/
theorem tSpinCorners_eq (p : Piece) :
    Game.tSpinCorners p =
      [(p.x, p.y), (p.x + 2, p.y), (p.x, p.y + 2), (p.x + 2, p.y + 2)] := by
  simp only [Game.tSpinCorners, List.cons.injEq, Prod.mk.injEq, and_true]
  omega

/-- Claim C1: `check_t_spin` returns a spin classification only when the
piece is the T shape and the last successful action was a rotation
(otherwise `none`); counting the four diagonal corner cells of the piece's
3×3 box as filled via `is_cell_filled`, it returns mini when at least 3 of
the 4 corners and at least 2 of the front corners (per rotation state) are
filled, normal when at least 3 corners but fewer than 2 front corners are
filled, and no spin when fewer than 3 corners are filled. -/
theorem claim_C1_check_t_spin_classification (g : Grid) (p : Piece) (rot : Bool) :
    Game.check_t_spin g p rot =
      if p.shape_name = ShapeName.T ∧ rot = true then
        if 3 ≤ ([(p.x, p.y), (p.x + 2, p.y), (p.x, p.y + 2), (p.x + 2, p.y + 2)].countP
            (fun c => Game.is_cell_filled g c.1 c.2)) then
          if 2 ≤ ((Game.get_front_corners p).countP
              (fun c => Game.is_cell_filled g c.1 c.2)) then
            some TSpin.mini
          else some TSpin.normal
        else none
      else none := by
  rw [Game.check_t_spin, ← tSpinCorners_eq]
  by_cases hT : p.shape_name = ShapeName.T <;> cases rot <;> simp [hT]

/-- Claim C5: `is_cell_filled` is total on all integer coordinates and
returns `true` whenever the coordinate is out of bounds; in bounds it
returns exactly whether the cell at `(x, y)` is non-zero, and the guarded
indexing stays inside the grid (witnessed by the in-range indices). -/
theorem claim_C5_is_cell_filled_total (g : Grid) (x y : Int) (hwf : g.Wf) :
    ((x < 0 ∨ (g.width : Int) ≤ x ∨ y < 0 ∨ (g.height : Int) ≤ y) →
      Game.is_cell_filled g x y = true) ∧
    (0 ≤ x → x < (g.width : Int) → 0 ≤ y → y < (g.height : Int) →
      ∃ hy : y.toNat < g.cells.length,
        ∃ hx : x.toNat < (g.cells.get ⟨y.toNat, hy⟩).length,
          Game.is_cell_filled g x y =
            decide ((g.cells.get ⟨y.toNat, hy⟩).get ⟨x.toNat, hx⟩ ≠ 0)) := by
  constructor
  · intro h
    rw [Game.is_cell_filled, if_pos h]
  · intro hx0 hxw hy0 hyh
    have hy : y.toNat < g.cells.length := by
      have h1 := hwf.1
      omega
    have hrow : g.cells.get ⟨y.toNat, hy⟩ ∈ g.cells := g.cells.get_mem _ hy
    have hlen : (g.cells.get ⟨y.toNat, hy⟩).length = g.width := hwf.2 _ hrow
    have hx : x.toNat < (g.cells.get ⟨y.toNat, hy⟩).length := by omega
    refine ⟨hy, hx, ?_⟩
    rw [Game.is_cell_filled, if_neg (by omega)]
    have hrowe : g.cells.getD y.toNat [] = g.cells.get ⟨y.toNat, hy⟩ := by
      rw [List.getD_eq_getElem _ _ hy, List.get_eq_getElem]
    rw [hrowe]
    rw [List.getD_eq_getElem _ _ hx]
    simp only [List.get_eq_getElem]
    rw [Bool.eq_iff_iff]
    simp [bne_iff_ne]

/-- Claim C10: for every rotation state the two front corners and the two
back corners are disjoint and together are exactly the four diagonal
corner cells inspected by `check_t_spin`; hence for every grid the filled
front count plus the filled back count is the total filled corner count. -/
theorem claim_C10_corner_partition (g : Grid) (p : Piece) :
    ((Game.get_front_corners p ++ Game.get_back_corners p).Perm (Game.tSpinCorners p)) ∧
    (∀ c ∈ Game.get_front_corners p, c ∉ Game.get_back_corners p) ∧
    ((Game.get_front_corners p).countP (fun c => Game.is_cell_filled g c.1 c.2) +
      (Game.get_back_corners p).countP (fun c => Game.is_cell_filled g c.1 c.2) =
      (Game.tSpinCorners p).countP (fun c => Game.is_cell_filled g c.1 c.2)) := by
  have hperm : (Game.get_front_corners p ++ Game.get_back_corners p).Perm
      (Game.tSpinCorners p) := by
    rw [tSpinCorners_eq, Game.get_front_corners, Game.get_back_corners]
    split_ifs
    · exact List.perm_append_comm
    · exact List.Perm.cons _ (List.Perm.swap _ _ _)
    · exact List.Perm.refl _
    · exact List.perm_append_comm.trans (List.Perm.cons _ (List.Perm.swap _ _ _))
  refine ⟨hperm, ?_, ?_⟩
  · intro c hc hcb
    rw [Game.get_front_corners] at hc
    rw [Game.get_back_corners] at hcb
    split_ifs at hc hcb <;>
      simp only [List.mem_cons, List.not_mem_nil, or_false] at hc hcb <;>
      rcases hc with rfl | rfl <;> rcases hcb with h | h <;>
      (rw [Prod.mk.injEq] at h; omega)
  · rw [← List.countP_append, hperm.countP_eq]

/-- Claim C4: the lock step's row scan, computed on the post-lock board
before any removal, contains exactly the row indices whose every cell is
non-empty, and lists them in strictly decreasing (bottom-to-top) order. -/
theorem claim_C4_full_row_scan (g : Grid) (p : Piece) :
    (∀ y, y ∈ Game.lines_to_clear (g.lock_piece p) ↔
      y < (g.lock_piece p).height ∧
        ∀ x, x < (g.lock_piece p).width →
          ((g.lock_piece p).cells.getD y []).getD x 0 ≠ 0) ∧
    (Game.lines_to_clear (g.lock_piece p)).Pairwise (· > ·) := by
  generalize g.lock_piece p = G
  constructor
  · intro y
    rw [Game.lines_to_clear]
    simp only [List.mem_filter, List.mem_reverse, List.mem_range, List.all_eq_true,
      bne_iff_ne, ne_eq]
  · rw [Game.lines_to_clear]
    apply List.Pairwise.filter
    rw [List.pairwise_reverse]
    exact List.pairwise_lt_range _

/-- Claim C2: when the lock delay is active and, after adding the tick's
elapsed time, the timer has reached `LOCK_DELAY` or the move count has
reached `MAX_LOCK_MOVES`, the piece is marked locked only if it is still
touching the ground at that instant; otherwise the delay deactivates, the
move count and timer reset to 0, and the piece is not marked locked. -/
theorem claim_C2_lock_delay_expiry (cfg : Config) (g : Grid) (delta : Int) (p : Piece)
    (hactive : p.lock_delay_active = true)
    (hexp : cfg.LOCK_DELAY ≤ p.lock_delay_timer + delta ∨
      cfg.MAX_LOCK_MOVES ≤ p.lock_moves_count) :
    (p.is_touching_ground g = true →
      (Game.lockDelayStep cfg g delta p).is_locked = true) ∧
    (p.is_touching_ground g = false →
      (Game.lockDelayStep cfg g delta p).is_locked = p.is_locked ∧
      (Game.lockDelayStep cfg g delta p).lock_delay_active = false ∧
      (Game.lockDelayStep cfg g delta p).lock_moves_count = 0 ∧
      (Game.lockDelayStep cfg g delta p).lock_delay_timer = 0) := by
  have htg : ∀ (a : Bool) (t : Int) (m : Nat) (k : Bool),
      Piece.is_touching_ground g
        { shape_name := p.shape_name, x := p.x, y := p.y,
          rotation_state := p.rotation_state, color := p.color,
          lock_delay_active := a, lock_delay_timer := t, lock_moves_count := m,
          is_locked := k } = p.is_touching_ground g :=
    fun _ _ _ _ => rfl
  rcases hexp with h | h <;> constructor <;> intro ht <;>
    simp [Game.lockDelayStep, hactive, h, htg, ht]

/-- Claim C7: when the drop timer exceeds the drop speed the gravity step
performs exactly one downward move attempt, resets the drop timer to 0 and
increments the drop-height counter; otherwise it changes nothing. -/
theorem claim_C7_gravity_step (cfg : Config) (s : Game) (p : Piece) :
    (s.drop_speed < s.drop_timer →
      Game.gravityStep cfg s p =
        ({ s with drop_timer := 0, drop_height := s.drop_height + 1 },
         (p.move cfg s.grid 0 1).1)) ∧
    (¬ s.drop_speed < s.drop_timer → Game.gravityStep cfg s p = (s, p)) := by
  constructor <;> intro h <;> simp [Game.gravityStep, h]

/-- Claim C8: once `game_over` is set, every subsequent tick leaves the
whole session state — in particular the grid, the score and the active
piece — unchanged. -/
theorem claim_C8_game_over_freezes (cfg : Config) (delta : Int) (n : Nat) (s : Game)
    (h : s.game_over = true) :
    (fun st => Game.update cfg delta st)^[n] s = s := by
  have h1 : Game.update cfg delta s = s := by
    simp [Game.update, h]
  induction n with
  | zero => rfl
  | succ k ih => rw [Function.iterate_succ_apply, h1, ih]

/-- Claim C3 (amended): the lock step sets `game_over` exactly when the
piece drawn at its spawn position collides with the post-clear board (or
it was already set), while `hold_piece` — which also spawns a new active
piece — never touches `game_over` at all. -/
theorem claim_C3_spawn_game_over_paths (cfg : Config) (s : Game) (p : Piece) (w : Bool) :
    (Game.hold_piece s).game_over = s.game_over ∧
    (Game.lockStep cfg s p w).game_over =
      (let grid2 := if 0 < (Game.lines_to_clear (s.grid.lock_piece p)).length
          then (s.grid.lock_piece p).clear_lines else s.grid.lock_piece p
       grid2.is_collision (PieceGen.get_next_piece grid2 s.piece_generator).1
         || s.game_over) := by
  constructor
  · rcases hcur : s.current_piece with _ | q
    · simp [Game.hold_piece, hcur]
    · rcases hh : s.held_piece with _ | hp <;> simp [Game.hold_piece, hcur, hh]
  · by_cases hlin : 0 < (Game.lines_to_clear (s.grid.lock_piece p)).length
    · simp only [Game.lockStep, Game.update_drop_speed, if_pos hlin]
      split <;> split <;> split <;> simp_all
    · simp only [Game.lockStep, Game.update_drop_speed, if_neg hlin]
      split <;> split <;> split <;> simp_all

/-- Claim C6: after a lock that cleared at least one line, the drop speed
is `max(MIN_DROP_SPEED, INITIAL_DROP_SPEED - (level-1)*SPEED_INCREMENT)`
computed with the level value the state holds after the level update; a
lock that cleared no lines leaves level and drop speed unchanged. -/
theorem claim_C6_drop_speed_recompute (cfg : Config) (s : Game) (p : Piece) (w : Bool) :
    (0 < (Game.lines_to_clear (s.grid.lock_piece p)).length →
      (Game.lockStep cfg s p w).drop_speed =
        max cfg.MIN_DROP_SPEED
          (cfg.INITIAL_DROP_SPEED -
            (((Game.lockStep cfg s p w).score.level : Int) - 1) * cfg.SPEED_INCREMENT)) ∧
    ((Game.lines_to_clear (s.grid.lock_piece p)).length = 0 →
      (Game.lockStep cfg s p w).score.level = s.score.level ∧
      (Game.lockStep cfg s p w).drop_speed = s.drop_speed) := by
  constructor
  · intro hlin
    simp only [Game.lockStep, Game.update_drop_speed, if_pos hlin]
    split <;> split <;> split <;>
      simp_all [Score.add_tetris_clear_bonus, Score.update_level]
  · intro hlin
    have hneg : ¬ 0 < (Game.lines_to_clear (s.grid.lock_piece p)).length := by omega
    simp only [Game.lockStep, Game.update_drop_speed, if_neg hneg]
    split <;> split <;> split <;>
      simp_all [Score.add_tetris_clear_bonus, Score.update, Score.update_level]

/-- Claim C9: holding with an empty slot stores a freshly constructed piece
of the current shape identity and replaces the current piece with the
generator's next piece; with a non-empty slot the two shape identities are
swapped through freshly constructed pieces and the incoming piece's
position is reset.  In both cases the stored piece is the fresh
constructor's output, a value depending only on the shape identity, never
the live active piece. -/
theorem claim_C9_hold_stores_fresh_copy (s : Game) (p : Piece)
    (hcur : s.current_piece = some p) :
    (s.held_piece = none →
      (Game.hold_piece s).held_piece = some (mkTetromino s.grid p.shape_name) ∧
      (Game.hold_piece s).current_piece =
        some (PieceGen.get_next_piece s.grid s.piece_generator).1 ∧
      (Game.hold_piece s).piece_generator =
        (PieceGen.get_next_piece s.grid s.piece_generator).2) ∧
    (∀ hp, s.held_piece = some hp →
      (Game.hold_piece s).held_piece = some (mkTetromino s.grid p.shape_name) ∧
      (Game.hold_piece s).current_piece =
        some ((mkTetromino s.grid hp.shape_name).reset_position s.grid)) := by
  constructor
  · intro hh
    simp [Game.hold_piece, hcur, hh]
  · intro hp hh
    simp [Game.hold_piece, hcur, hh]

/-- Claim C3 counterexample: on `gameHoldCex` the hold operation spawns the
generator's next piece, that piece collides with the board at its spawn
position, and yet `game_over` stays `false` — refuting the claim that
every spawn path, including hold, surfaces a spawn collision as game
over. -/
theorem claim_C3_counterexample :
    (Game.hold_piece gameHoldCex).game_over = false ∧
    (Game.hold_piece gameHoldCex).current_piece =
      some (mkTetromino gSpawnBlocked ShapeName.O) ∧
    (Game.hold_piece gameHoldCex).grid.is_collision
      (mkTetromino gSpawnBlocked ShapeName.O) = true := by
  refine ⟨by decide, by decide, by decide⟩

/-- Witness for claim C2: a resting T piece whose lock-delay timer expires
this tick is marked locked. -/
theorem claim_C2_witness :
    (Game.lockDelayStep cfg0 gEmpty4 60 pResting).is_locked = true :=
  (claim_C2_lock_delay_expiry cfg0 gEmpty4 60 pResting rfl (Or.inl (by decide))).1
    (by decide)

/-- Witness for claim C4: the bottom row completed by locking `pO` is
reported by the row scan. -/
theorem claim_C4_witness : 3 ∈ Game.lines_to_clear (gBottomGap.lock_piece pO) :=
  ((claim_C4_full_row_scan gBottomGap pO).1 3).mpr (by decide)

/-- Witness for claim C5: an out-of-board query on a concrete well-formed
grid reports filled. -/
theorem claim_C5_witness : Game.is_cell_filled gMixed (-1) 0 = true :=
  (claim_C5_is_cell_filled_total gMixed (-1) 0 (by decide)).1 (by decide)

/-- Witness for claim C6: a lock clearing one line recomputes the drop
speed from the post-update level. -/
theorem claim_C6_witness :
    (Game.lockStep cfg0 gameLock pO false).drop_speed =
      max cfg0.MIN_DROP_SPEED
        (cfg0.INITIAL_DROP_SPEED -
          (((Game.lockStep cfg0 gameLock pO false).score.level : Int) - 1) *
            cfg0.SPEED_INCREMENT) :=
  (claim_C6_drop_speed_recompute cfg0 gameLock pO false).1 (by decide)

/-- Witness for claim C7: with the drop timer past the drop speed, the
gravity step performs the downward move attempt, resets the timer and
bumps the drop height. -/
theorem claim_C7_witness :
    Game.gravityStep cfg0 gameFast pResting =
      ({ gameFast with drop_timer := 0, drop_height := gameFast.drop_height + 1 },
       (pResting.move cfg0 gameFast.grid 0 1).1) :=
  (claim_C7_gravity_step cfg0 gameFast pResting).1 (by decide)

/-- Witness for claim C8: two ticks on a game-over state change nothing. -/
theorem claim_C8_witness :
    (fun st => Game.update cfg0 16 st)^[2] gameOverState = gameOverState :=
  claim_C8_game_over_freezes cfg0 16 2 gameOverState rfl

/-- Witness for claim C9: holding a moved T piece stores a fresh spawn-state
T piece, independent of the active piece's position. -/
theorem claim_C9_witness :
    (Game.hold_piece gameHold).held_piece =
      some (mkTetromino gameHold.grid ShapeName.T) :=
  ((claim_C9_hold_stores_fresh_copy gameHold { pRot2 with x := 1, y := 1 } rfl).1 rfl).1

/-- Witness for claim C10: a concrete front corner of a rotation-2 T piece
is not among its back corners. -/
theorem claim_C10_witness : (0, 1) ∉ Game.get_back_corners pRot2 :=
  (claim_C10_corner_partition gMixed pRot2).2.1 (0, 1) (by decide)
